import Mathlib

/-!
Verification of the estoc gltf-to-convex-collision converter (src/main.rs).

The pipeline under study: walk the scene graph, extract each meshed node's
vertex/index buffers, compose the node transform (scale, then rotation, then
translation), optionally combine all meshes into one, drive the VHACD
decomposition service with run-wide parameters, and emit each hull either as
an OBJ file or collected into one JSON document.

Vertex coordinates (Rust `Point3<f32>`) are opaque to every structural
operation of the pipeline (buffer concatenation, index chunking, emission),
so those operations are embedded parametrically in a vertex type `α`; the
transform-composition arithmetic, which does inspect coordinates, is embedded
separately over `ℝ` below.
-/

/-- A triangle: `[u32; 3]` of vertex indices (kept as `Nat`; the `u32` range
matters only at the OBJ `+ 1` emission, where it is taken mod `2^32`). -/
abbrev Tri := Nat × Nat × Nat

/-- One `(Vec<Point3<f32>>, Vec<[u32; 3]>)` pair as accumulated per meshed
node (`all_shapes` entries in `convert_and_write`). -/
structure Shape (α : Type) where
  verts : List α
  tris : List Tri
deriving DecidableEq, Repr

/-- One gltf primitive as seen through `primitive.reader`: an optional
position stream (`read_positions`) and an optional index stream
(`read_indices`, already widened through `into_u32`). -/
structure Primitive (α : Type) where
  positions : Option (List α)
  indices : Option (List Nat)
deriving DecidableEq, Repr

/-- Lines 83-101 of main.rs: concatenate every primitive's position stream
into `verts` and every primitive's index stream into the flat `indices`
vector; an absent stream contributes nothing. -/
def readVertsAndIndices {α : Type} (prims : List (Primitive α)) :
    List α × List Nat :=
  prims.foldl
    (fun acc p => (acc.1 ++ p.positions.getD [], acc.2 ++ p.indices.getD []))
    ([], [])

/-- Lines 103-107 of main.rs: `for c in indices.chunks(3) { let t = [c[0],
c[1], c[2]]; tris.push(t); }`.  `chunks(3)` yields a final short chunk when
the length is not a multiple of 3, and `c[1]` / `c[2]` then panic with an
index-out-of-bounds; `none` models that panic (which aborts the process). -/
def chunkTris : List Nat → Option (List Tri)
  | [] => some []
  | [_] => none
  | [_, _] => none
  | a :: b :: c :: rest =>
    match chunkTris rest with
    | none => none
    | some ts => some ((a, b, c) :: ts)

/-- Lines 80-107 of main.rs: extraction of one meshed node's `Shape`;
`none` = the chunking panic aborted the process. -/
def extractMesh {α : Type} (prims : List (Primitive α)) : Option (Shape α) :=
  match chunkTris (readVertsAndIndices prims).2 with
  | none => none
  | some ts => some ⟨(readVertsAndIndices prims).1, ts⟩

/-- The scene walk (lines 76-145) restricted to its meshed nodes, in
enumeration order: extraction runs mesh after mesh, and a panic in any one
extraction aborts the whole run (`none`), discarding all work. -/
def extractAllMeshes {α : Type} :
    List (List (Primitive α)) → Option (List (Shape α))
  | [] => some []
  | m :: rest =>
    match extractMesh m with
    | none => none
    | some s =>
      match extractAllMeshes rest with
      | none => none
      | some l => some (s :: l)

/-- Lines 150-163 of main.rs (`combine_meshes` branch): fold every shape into
one accumulator with `verts.extend(&v.0); tris.extend(&v.1);` — NOTE: the
triangle indices are appended verbatim, with no re-basing offset. -/
def combineShapes {α : Type} (shapes : List (Shape α)) : Shape α :=
  shapes.foldl (fun acc s => ⟨acc.verts ++ s.verts, acc.tris ++ s.tris⟩)
    ⟨[], []⟩

/-- Modelled from the spec: §4.4's Mesh Aggregator contract, "re-basing each
source mesh's triangle indices by the prefix sum of vertex counts of all
previously appended meshes".  Kept solely to compare against `combineShapes`,
the code's actual aggregator. -/
def combineShapesSpec {α : Type} (shapes : List (Shape α)) : Shape α :=
  shapes.foldl
    (fun acc s =>
      ⟨acc.verts ++ s.verts,
       acc.tris ++ s.tris.map (fun t =>
         (t.1 + acc.verts.length, t.2.1 + acc.verts.length,
          t.2.2 + acc.verts.length))⟩)
    ⟨[], []⟩

/-- Lines 147-167 of main.rs: the list of mesh groups handed to
decomposition — the single combined shape when `combine_meshes`, otherwise
every extracted shape unchanged. -/
def shapeVecComposed {α : Type} (combine : Bool) (shapes : List (Shape α)) :
    List (Shape α) :=
  if combine then [combineShapes shapes] else shapes

/-- The geometric triangle denoted by an index triple in a shape: the three
vertex values fetched at its indices (`none` when an index is out of
range). -/
def triDenote {α : Type} (s : Shape α) (t : Tri) : Option (α × α × α) :=
  match s.verts[t.1]?, s.verts[t.2.1]?, s.verts[t.2.2]? with
  | some a, some b, some c => some (a, b, c)
  | _, _, _ => none

/-- All geometric triangles a shape's triangle list denotes, in order. -/
def denotedTris {α : Type} (s : Shape α) : List (Option (α × α × α)) :=
  s.tris.map (triDenote s)

/-- The triangle-index invariant of spec §3: three pairwise-distinct indices,
each below the owning mesh's vertex count. -/
def triValid (vertCount : Nat) (t : Tri) : Prop :=
  t.1 ≠ t.2.1 ∧ t.1 ≠ t.2.2 ∧ t.2.1 ≠ t.2.2 ∧
    t.1 < vertCount ∧ t.2.1 < vertCount ∧ t.2.2 < vertCount

instance (n : Nat) (t : Tri) : Decidable (triValid n t) := by
  unfold triValid; infer_instance

/-- A shape satisfies the invariant when every triangle does. -/
def meshInvariant {α : Type} (s : Shape α) : Prop :=
  ∀ t ∈ s.tris, triValid s.verts.length t

instance {α : Type} (s : Shape α) : Decidable (meshInvariant s) := by
  unfold meshInvariant; infer_instance

/-! ### Command-line arguments and decomposition parameters -/

/-- The CLI surface (`struct Args`, lines 12-46 of main.rs).  There is no
fill-mode option.  `u32` counts are kept as `Nat` (never overflowed by the
code). -/
structure Args where
  gltfFile : String
  outputDirectory : Option String
  append : Option String
  maxHulls : Nat
  voxelResolution : Nat
  logSuccess : Bool
  jsonOnly : Bool
  combineMeshes : Bool
deriving DecidableEq, Repr

/-- Parry's `FillMode`: flood fill (with its cavity-detection flag) or plain
surface-only voxelization. -/
inductive FillMode where
  | floodFill (detectCavities : Bool)
  | surfaceOnly
deriving DecidableEq, Repr

/-- The three `VHACDParameters` fields `convert_and_write` assigns (lines
69-74 of main.rs).  The remaining service parameters are left at their
library defaults and never touched, so they are constant per run and are not
modelled. -/
structure VHACDParams where
  maxConvexHulls : Nat
  resolution : Nat
  fillMode : FillMode
deriving DecidableEq, Repr

/-- Lines 69-74 of main.rs: the single `params` value built once, before the
scene walk, from the arguments. -/
def paramsOf (a : Args) : VHACDParams :=
  ⟨a.maxHulls, a.voxelResolution, FillMode.floodFill true⟩

/-- Lines 171-173 of main.rs: every mesh group is decomposed with that same
`params` value; this lists the `(parameters, group)` pair of each
`VHACD::decompose` call of the run. -/
def decompositionCalls {α : Type} (a : Args) (groups : List (Shape α)) :
    List (VHACDParams × Shape α) :=
  groups.map (fun g => (paramsOf a, g))

/-! ### Output file naming (Rust `Path::set_extension` semantics) -/

/-- Split a character list at its last `.`: `l = stem ++ dot ++ ext` with no
further dot in `ext`.  `none` when `l` has no dot. -/
def splitLastDot : List Char → Option (List Char × List Char)
  | [] => none
  | c :: rest =>
    match splitLastDot rest with
    | some p => some (c :: p.1, p.2)
    | none => if c = '.' then some ([], rest) else none

/-- Rust `Path::set_extension` restricted to a single path component, as used
on `directory.join(filename_fmt)` (lines 230-232 and 289-291 of main.rs):
the portion after the last dot — ignoring a dot in first position — is
replaced by the new extension; when there is no such dot the extension is
appended.  (`""`, `"."` and `".."` have no file name, so `set_extension`
is a no-op on them.) -/
def setExtension (s ext : String) : String :=
  match s.data with
  | [] => s
  | c :: rest =>
    if s = "." ∨ s = ".." then s
    else
      match splitLastDot rest with
      | some p => String.mk (c :: p.1) ++ "." ++ ext
      | none => s ++ "." ++ ext

/-- Lines 191-198 and 230-232 of main.rs: the aggregate JSON document's file
name — the input path's file name, suffixed with `append`, then
`set_extension("json")`. -/
def jsonOutName (inputFileName append : String) : String :=
  setExtension (inputFileName ++ append) "json"

/-- Lines 289-291 of main.rs: a hull's OBJ file name — the per-hull name,
suffixed with `append`, then `set_extension("obj")`. -/
def objOutName (hullName append : String) : String :=
  setExtension (hullName ++ append) "obj"

/-! ### OBJ emission -/

/-- `2^32`, the modulus of Rust `u32` arithmetic. -/
def u32Mod : Nat := 4294967296

/-- One `u32` increment, as in `tri[k] + 1` on line 285 of main.rs. -/
def u32Add1 (n : Nat) : Nat := (n + 1) % u32Mod

/-- The three numbers carried by a hull triangle's `f` face record (line 285
of main.rs): each 0-based index incremented. -/
def objFaceNums (t : Tri) : Tri :=
  (u32Add1 t.1, u32Add1 t.2.1, u32Add1 t.2.2)

/-- Line 285 of main.rs: `format!("f {} {} {}", tri[0] + 1, tri[1] + 1,
tri[2] + 1)`. -/
def objFaceLine (t : Tri) : String :=
  "f " ++ toString (objFaceNums t).1 ++ " " ++ toString (objFaceNums t).2.1
    ++ " " ++ toString (objFaceNums t).2.2

/-- Line 138 / 158 / 175-176 of main.rs: fallback display name. -/
def unknownShapeName : String := "Unknown Shape"

/-- Lines 175-176 of main.rs: `shape_names.get(i).unwrap_or(&default_name)`
for mesh-group index `i`. -/
def hullBaseName (shapeNames : List String) (i : Nat) : String :=
  shapeNames.getD i unknownShapeName

/-- Lines 171-185 of main.rs (OBJ branch): the `name` argument of every
`write_mesh_to_obj` call of the run, in order — for group `i` and hull index
`hull_i`, `format!("{}{}", hull_name_base, hull_i)`.  `decompose` stands for
the external call chain `VHACD::decompose` +
`compute_exact_convex_hulls`. -/
def objHullWriteCalls {α : Type} (decompose : Shape α → List (Shape α))
    (combine : Bool) (shapes : List (Shape α)) (shapeNames : List String) :
    List String :=
  (shapeVecComposed combine shapes).enum.flatMap (fun gi =>
    (List.range (decompose gi.2).length).map (fun hullIdx =>
      hullBaseName shapeNames gi.1 ++ toString hullIdx))

/-! ### Write-failure behavior of the OBJ loop -/

/-- The I/O fate of one hull's OBJ file: creation and all writes succeed;
`File::create` fails (line 293, propagated as `Err` through `?`); or some
`file.write` call fails (lines 299-302, `.expect(...)` panics). -/
inductive FsOutcome where
  | ok
  | createFail
  | writeFail
deriving DecidableEq, Repr

/-- `write_mesh_to_obj` (lines 268-306 of main.rs) under a given I/O fate:
`some (Except.ok ())` on success, `some (Except.error ())` when creation
fails (returned to the caller), `none` when a write fails — the `.expect`
panic, which kills the process. -/
def writeMeshToObjR (o : FsOutcome) : Option (Except Unit Unit) :=
  match o with
  | FsOutcome.ok => some (Except.ok ())
  | FsOutcome.createFail => some (Except.error ())
  | FsOutcome.writeFail => none

/-- Lines 179-185 of main.rs: the per-hull loop, with one `FsOutcome` per
hull.  A returned `Err` is caught by the `match` (reported via `eprintln`)
and the loop continues; a panic (`none`) aborts the run.  The result lists
each attempted hull's success flag, or is `none` when the run died. -/
def runObjEmission : List FsOutcome → Option (List Bool)
  | [] => some []
  | o :: rest =>
    match writeMeshToObjR o with
    | none => none
    | some r =>
      match runObjEmission rest with
      | none => none
      | some l => some ((r matches Except.ok _) :: l)

/-- How many hulls of the loop are actually attempted (reached) before the
run either finishes or dies in a write panic. -/
def attemptedObjWrites : List FsOutcome → Nat
  | [] => 0
  | o :: rest =>
    match writeMeshToObjR o with
    | none => 1
    | some _ => 1 + attemptedObjWrites rest

/-! ### JSON emission -/

/-- `SerdeShape` (lines 212-216 of main.rs): the per-shape JSON entry.  The
`points` field holds the same vertex data (the `SerdePoint3 { x, y, z }`
repack copies the three coordinates of each `Point3` unchanged). -/
structure SerdeShape (α : Type) where
  points : List α
  tris : List Tri
deriving DecidableEq, Repr

/-- `ShapeCollection` (lines 218-221 of main.rs): the whole JSON document. -/
structure ShapeCollection (α : Type) where
  shapes : List (SerdeShape α)
deriving DecidableEq, Repr

/-- Lines 237-252 of main.rs: one shape's JSON entry — points copied, `tris:
shape.1` verbatim. -/
def serdeShapeOfShape {α : Type} (s : Shape α) : SerdeShape α :=
  ⟨s.verts, s.tris⟩

/-- Lines 235-261 of main.rs: the document serialized by
`write_meshes_to_json`. -/
def writeMeshesToJsonDoc {α : Type} (shapes : List (Shape α)) :
    ShapeCollection α :=
  ⟨shapes.map serdeShapeOfShape⟩

/-- Lines 171-189 of main.rs (JSON branch): `json_vec_decomposed`, every
group's hulls appended in group order. -/
def jsonVecDecomposed {α : Type} (decompose : Shape α → List (Shape α))
    (combine : Bool) (shapes : List (Shape α)) : List (Shape α) :=
  (shapeVecComposed combine shapes).flatMap decompose

/-! ### Transform composition (lines 110-136 of main.rs)

The node transform arithmetic, embedded over `ℝ` (`f32` idealized as real
arithmetic).  nalgebra's `UnitQuaternion::from_quaternion`, `euler_angles`,
`Rotation3::new` and `Isometry3::transform_point` are external collaborators;
they are modelled at their documented semantics (quaternion normalization,
rotation-matrix conversion, Slabaugh Euler extraction, axis-angle Rodrigues
rotation, `R · p + t`).  These definitions cannot be computable because real
trigonometry is not. -/

/-- A 3-component vector / point (`Point3<f32>` or `Vector3<f32>`). -/
structure V3 where
  x : ℝ
  y : ℝ
  z : ℝ

/-- A 3×3 matrix, row-major fields `mRC`. -/
structure M3 where
  m11 : ℝ
  m12 : ℝ
  m13 : ℝ
  m21 : ℝ
  m22 : ℝ
  m23 : ℝ
  m31 : ℝ
  m32 : ℝ
  m33 : ℝ

/-- A quaternion in nalgebra's `Quaternion::new(w, i, j, k)` field order. -/
structure Quat where
  w : ℝ
  i : ℝ
  j : ℝ
  k : ℝ

/-- The rotation component of `node.transform().decomposed()`: a gltf
quaternion `[x, y, z, w]`. -/
structure GltfRot where
  x : ℝ
  y : ℝ
  z : ℝ
  w : ℝ

noncomputable def addV (a b : V3) : V3 :=
  ⟨a.x + b.x, a.y + b.y, a.z + b.z⟩

/-- Lines 119-128 of main.rs: `point![v.x * scale_comp[0], v.y *
scale_comp[1], v.z * scale_comp[2]]`. -/
noncomputable def scaleV (s v : V3) : V3 :=
  ⟨v.x * s.x, v.y * s.y, v.z * s.z⟩

noncomputable def mulV (m : M3) (v : V3) : V3 :=
  ⟨m.m11 * v.x + m.m12 * v.y + m.m13 * v.z,
   m.m21 * v.x + m.m22 * v.y + m.m23 * v.z,
   m.m31 * v.x + m.m32 * v.y + m.m33 * v.z⟩

def m3Ident : M3 := ⟨1, 0, 0, 0, 1, 0, 0, 0, 1⟩

/-- Line 115 of main.rs: `Quaternion::new(rotation[3], rotation[0],
rotation[1], rotation[2])` — the gltf `[x, y, z, w]` components consumed
once, under the single convention `w := rotation[3]`. -/
def quatOfDecomposed (r : GltfRot) : Quat := ⟨r.w, r.x, r.y, r.z⟩

noncomputable def quatNorm (q : Quat) : ℝ :=
  Real.sqrt (q.w * q.w + q.i * q.i + q.j * q.j + q.k * q.k)

/-- `UnitQuaternion::from_quaternion` = normalize. -/
noncomputable def unitize (q : Quat) : Quat :=
  ⟨q.w / quatNorm q, q.i / quatNorm q, q.j / quatNorm q, q.k / quatNorm q⟩

/-- The rotation matrix of a unit quaternion
(nalgebra `UnitQuaternion::to_rotation_matrix`). -/
noncomputable def rotMatOfUnitQuat (q : Quat) : M3 :=
  ⟨q.w * q.w + q.i * q.i - q.j * q.j - q.k * q.k,
   (q.i * q.j - q.w * q.k) * 2,
   (q.w * q.j + q.i * q.k) * 2,
   (q.w * q.k + q.i * q.j) * 2,
   q.w * q.w - q.i * q.i + q.j * q.j - q.k * q.k,
   (q.j * q.k - q.w * q.i) * 2,
   (q.i * q.k - q.w * q.j) * 2,
   (q.w * q.i + q.j * q.k) * 2,
   q.w * q.w - q.i * q.i - q.j * q.j + q.k * q.k⟩

/-- Two-argument arctangent, the semantics of `f32::atan2(y, x)`: the
argument of the complex number `x + y·i`. -/
noncomputable def atan2 (y x : ℝ) : ℝ := Complex.arg ⟨x, y⟩

/-- `Rotation3::euler_angles` (roll, pitch, yaw — intrinsic ZYX extraction à
la Slabaugh): branch on `|m31| < 1`, middle angle `-asin m31`, outer angles
by `atan2` of the adjacent entries; gimbal-lock branches at `±π/2`. -/
noncomputable def eulerOfMat (m : M3) : V3 :=
  if |m.m31| < 1 then
    ⟨atan2 m.m32 m.m33, -Real.arcsin m.m31, atan2 m.m21 m.m11⟩
  else if m.m31 ≤ -1 then
    ⟨atan2 m.m12 m.m13, Real.pi / 2, 0⟩
  else
    ⟨atan2 (-m.m12) (-m.m13), -(Real.pi / 2), 0⟩

/-- Line 116 of main.rs: `UnitQuaternion::from_quaternion(quat)
.euler_angles()`, packed as the `(eulers.0, eulers.1, eulers.2)` vector of
line 132. -/
noncomputable def eulersOfDecomposed (r : GltfRot) : V3 :=
  eulerOfMat (rotMatOfUnitQuat (unitize (quatOfDecomposed r)))

noncomputable def v3Norm (v : V3) : ℝ :=
  Real.sqrt (v.x * v.x + v.y * v.y + v.z * v.z)

/-- Rodrigues rotation matrix about the unit axis `u` by `angle`
(nalgebra `Rotation3::from_axis_angle`). -/
noncomputable def rodriguesMat (u : V3) (angle : ℝ) : M3 :=
  ⟨u.x * u.x + (1 - u.x * u.x) * Real.cos angle,
   u.x * u.y * (1 - Real.cos angle) - u.z * Real.sin angle,
   u.x * u.z * (1 - Real.cos angle) + u.y * Real.sin angle,
   u.x * u.y * (1 - Real.cos angle) + u.z * Real.sin angle,
   u.y * u.y + (1 - u.y * u.y) * Real.cos angle,
   u.y * u.z * (1 - Real.cos angle) - u.x * Real.sin angle,
   u.x * u.z * (1 - Real.cos angle) - u.y * Real.sin angle,
   u.y * u.z * (1 - Real.cos angle) + u.x * Real.sin angle,
   u.z * u.z + (1 - u.z * u.z) * Real.cos angle⟩

/-- `Rotation3::new(axisangle)`: the vector's norm is the angle, its
direction the axis; a zero angle yields the identity (nalgebra's explicit
`is_zero` branch in `from_axis_angle`). -/
noncomputable def rot3New (v : V3) : M3 :=
  if v3Norm v = 0 then m3Ident
  else
    rodriguesMat
      ⟨v.x / v3Norm v, v.y / v3Norm v, v.z / v3Norm v⟩
      (v3Norm v)

/-- `Isometry3::new(translation, axisangle).transform_point(p)` =
`R(axisangle) · p + translation` (lines 130-136 of main.rs).  NOTE the code
passes the *Euler-angle triple* where `Isometry3::new` expects an axis-angle
vector; the embedding reproduces that consumption faithfully. -/
noncomputable def isoTransformPoint (translation axisangle p : V3) : V3 :=
  addV (mulV (rot3New axisangle) p) translation

/-- The rotation matrix the code derives from a node's decomposed gltf
quaternion: normalize, convert to Euler angles, reinterpret the triple as an
axis-angle vector. -/
noncomputable def rotOfGltf (r : GltfRot) : M3 :=
  rot3New (eulersOfDecomposed r)

/-- Lines 110-136 of main.rs: the per-node vertex pipeline — scale every
vertex component-wise, then map every scaled vertex through the isometry
built from the translation and the derived rotation. -/
noncomputable def worldVerts (translation : V3) (rotation : GltfRot)
    (scaleComp : V3) (verts : List V3) : List V3 :=
  (verts.map (fun v => scaleV scaleComp v)).map
    (fun v => isoTransformPoint translation (eulersOfDecomposed rotation) v)

/-- The identity rotation as gltf hands it over: `[0, 0, 0, 1]`. -/
def gltfIdent : GltfRot := ⟨0, 0, 0, 1⟩

/-! ## Helper lemmas -/

theorem atan2_zero_one : atan2 0 1 = 0 := by
  have h : (⟨1, 0⟩ : ℂ) = 1 := by
    apply Complex.ext <;> simp
  rw [atan2, h, Complex.arg_one]

theorem quatNorm_ident : quatNorm ⟨1, 0, 0, 0⟩ = 1 := by
  simp [quatNorm]

theorem unitize_ident : unitize ⟨1, 0, 0, 0⟩ = ⟨1, 0, 0, 0⟩ := by
  simp [unitize, quatNorm_ident]

theorem rotMat_ident : rotMatOfUnitQuat ⟨1, 0, 0, 0⟩ = m3Ident := by
  simp [rotMatOfUnitQuat, m3Ident]

theorem euler_ident : eulerOfMat m3Ident = ⟨0, 0, 0⟩ := by
  rw [eulerOfMat]
  simp [m3Ident, atan2_zero_one, Real.arcsin_zero]

theorem rot3New_zero : rot3New ⟨0, 0, 0⟩ = m3Ident := by
  rw [rot3New]
  simp [v3Norm]

theorem mulV_ident (p : V3) : mulV m3Ident p = p := by
  simp [mulV, m3Ident]

theorem scaleV_one (p : V3) : scaleV ⟨1, 1, 1⟩ p = p := by
  simp [scaleV]

theorem chunkTris_none_iff :
    ∀ l : List Nat, chunkTris l = none ↔ l.length % 3 ≠ 0
  | [] => by simp [chunkTris]
  | [a] => by simp [chunkTris]
  | [a, b] => by simp [chunkTris]
  | a :: b :: c :: rest => by
    have ih := chunkTris_none_iff rest
    have hlen : (a :: b :: c :: rest).length % 3 = rest.length % 3 := by
      simp [List.length_cons]
      omega
    rw [hlen]
    cases h : chunkTris rest with
    | none => simp [chunkTris, h, ih.mp h]
    | some ts =>
      have h0 : rest.length % 3 = 0 := by
        by_contra hc
        rw [ih.mpr hc] at h
        exact Option.noConfusion h
      simp [chunkTris, h, h0]

theorem triValid_mono {n m : Nat} (h : n ≤ m) {t : Tri}
    (ht : triValid n t) : triValid m t := by
  obtain ⟨h1, h2, h3, h4, h5, h6⟩ := ht
  exact ⟨h1, h2, h3, lt_of_lt_of_le h4 h, lt_of_lt_of_le h5 h,
    lt_of_lt_of_le h6 h⟩

theorem meshInvariant_append {α : Type} {a s : Shape α}
    (ha : meshInvariant a) (hs : meshInvariant s) :
    meshInvariant ⟨a.verts ++ s.verts, a.tris ++ s.tris⟩ := by
  intro t ht
  show triValid (a.verts ++ s.verts).length t
  rw [List.length_append]
  rcases List.mem_append.mp ht with h | h
  · exact triValid_mono (Nat.le_add_right _ _) (ha t h)
  · exact triValid_mono (Nat.le_add_left _ _) (hs t h)

theorem meshInvariant_foldl {α : Type} (shapes : List (Shape α)) :
    ∀ acc : Shape α, meshInvariant acc → (∀ s ∈ shapes, meshInvariant s) →
      meshInvariant
        (shapes.foldl
          (fun acc s => ⟨acc.verts ++ s.verts, acc.tris ++ s.tris⟩) acc) := by
  induction shapes with
  | nil => intro acc hacc _; simpa using hacc
  | cons s rest ih =>
    intro acc hacc hall
    simp only [List.foldl_cons]
    exact ih _ (meshInvariant_append hacc (hall s (by simp)))
      (fun x hx => hall x (by simp [hx]))

/-! ## Claim theorems -/

/-- C1: the claim says the aggregator re-bases each source mesh's triangle
indices by the running vertex-count offset so the combined mesh denotes the
same geometric triangles as the sources.  The code does not: `tris.extend`
copies indices verbatim.  At the input `[⟨[10], []⟩, ⟨[20, 21, 22],
[(0, 1, 2)]⟩]` the combined mesh keeps triangle `(0, 1, 2)` (denoting
`(10, 20, 21)`) where the spec's re-based aggregator would produce
`(1, 2, 3)` (denoting the source triangle `(20, 21, 22)`); the combined
denotation differs from the union of the sources' denotations. -/
theorem estoc_c1_combine_no_rebase :
    combineShapes (α := Nat) [⟨[10], []⟩, ⟨[20, 21, 22], [(0, 1, 2)]⟩]
        = ⟨[10, 20, 21, 22], [(0, 1, 2)]⟩ ∧
    combineShapesSpec (α := Nat) [⟨[10], []⟩, ⟨[20, 21, 22], [(0, 1, 2)]⟩]
        = ⟨[10, 20, 21, 22], [(1, 2, 3)]⟩ ∧
    denotedTris (α := Nat) ⟨[10, 20, 21, 22], [(0, 1, 2)]⟩
        = [some (10, 20, 21)] ∧
    denotedTris (α := Nat) ⟨[10, 20, 21, 22], [(1, 2, 3)]⟩
        = [some (20, 21, 22)] ∧
    denotedTris (α := Nat) ⟨[10, 20, 21, 22], [(0, 1, 2)]⟩
        ≠ denotedTris (α := Nat) ⟨[10], []⟩
            ++ denotedTris (α := Nat) ⟨[20, 21, 22], [(0, 1, 2)]⟩ := by
  refine ⟨rfl, rfl, rfl, rfl, ?_⟩
  decide

/-- C2 counterexample: the claim says a flat index stream of length 4 yields
a reported `MalformedMesh` error and the run skips that mesh and continues.
In the code, `chunks(3)` plus `c[1]`/`c[2]` panics instead: extraction of
the bad mesh aborts the whole run (`none`), and the following well-formed
mesh — which extracts fine on its own — is never processed. -/
theorem estoc_c2_counterexample :
    extractAllMeshes (α := Nat)
        [[⟨some [7], some [0, 1, 2, 3]⟩], [⟨some [1, 2, 3], some [0, 1, 2]⟩]]
        = none ∧
    extractMesh (α := Nat) [⟨some [1, 2, 3], some [0, 1, 2]⟩]
        = some ⟨[1, 2, 3], [(0, 1, 2)]⟩ :=
  ⟨rfl, rfl⟩

/-- C2 amended: when the flat concatenated index stream has a length that is
not a multiple of 3, mesh extraction panics on the trailing short chunk and
aborts the entire run — no corrupted triangle is ever produced from the
leftover indices, but no `MalformedMesh` error is reported and the remaining
meshes are not processed. -/
theorem estoc_c2_amended {α : Type} (prims : List (Primitive α))
    (rest : List (List (Primitive α)))
    (h : (readVertsAndIndices prims).2.length % 3 ≠ 0) :
    extractMesh prims = none ∧ extractAllMeshes (prims :: rest) = none := by
  have hchunk : chunkTris (readVertsAndIndices prims).2 = none :=
    (chunkTris_none_iff _).mpr h
  have hm : extractMesh prims = none := by
    rw [extractMesh, hchunk]
  exact ⟨hm, by simp [extractAllMeshes, hm]⟩

/-- C2 witness for the amended theorem, at a one-vertex mesh whose index
stream has length 4. -/
theorem estoc_c2_amended_witness :
    extractMesh (α := Nat) [⟨some [7], some [0, 1, 2, 3]⟩] = none ∧
      extractAllMeshes (α := Nat) [[⟨some [7], some [0, 1, 2, 3]⟩]] = none :=
  estoc_c2_amended [⟨some [7], some [0, 1, 2, 3]⟩] [] (by decide)

/-- C3: the world-space pipeline composes scale innermost, then the rotation
derived from the node's quaternion (consumed once, under the single
`w := rotation[3]` convention), then the translation: every output vertex is
`R · (s ∘ p) + t`.  And with scale `(1,1,1)` and the identity quaternion the
output is exactly the input translated by `t`. -/
theorem estoc_c3_trs_order :
    (∀ (t : V3) (r : GltfRot) (s : V3) (verts : List V3),
        worldVerts t r s verts
          = verts.map (fun p => addV (mulV (rotOfGltf r) (scaleV s p)) t))
    ∧ (∀ (t : V3) (verts : List V3),
        worldVerts t gltfIdent ⟨1, 1, 1⟩ verts
          = verts.map (fun p => addV p t)) := by
  constructor
  · intro t r s verts
    rw [worldVerts, List.map_map]
    rfl
  · intro t verts
    have hE : eulersOfDecomposed gltfIdent = ⟨0, 0, 0⟩ := by
      rw [eulersOfDecomposed,
        show quatOfDecomposed gltfIdent = ⟨1, 0, 0, 0⟩ from rfl,
        unitize_ident, rotMat_ident, euler_ident]
    rw [worldVerts, List.map_map, hE]
    have hfun : ((fun v => isoTransformPoint t ⟨0, 0, 0⟩ v)
          ∘ (fun v => scaleV ⟨1, 1, 1⟩ v))
        = fun p => addV p t := by
      funext p
      simp [Function.comp, isoTransformPoint, scaleV_one, rot3New_zero,
        mulV_ident]
    rw [hfun]

/-- C4 counterexample: the claim says a failure writing one hull file never
prevents the remaining hull files from being attempted.  With two hulls
where the first file's byte-write fails, the `.expect` panic kills the run
(`none`) and only 1 of the 2 hulls is ever attempted. -/
theorem estoc_c4_counterexample :
    runObjEmission [FsOutcome.writeFail, FsOutcome.ok] = none ∧
      attemptedObjWrites [FsOutcome.writeFail, FsOutcome.ok]
        ≠ [FsOutcome.writeFail, FsOutcome.ok].length :=
  ⟨rfl, by decide⟩

/-- C4 amended: a *file-creation* failure is returned as `Err`, reported by
the caller's `match`, and does not abort the siblings — when no hull hits a
byte-write failure, the run survives and every hull's file is attempted.  A
failure during the byte writes themselves, however, panics and aborts the
run. -/
theorem estoc_c4_amended (os : List FsOutcome)
    (h : FsOutcome.writeFail ∉ os) :
    (runObjEmission os).isSome = true ∧ attemptedObjWrites os = os.length := by
  induction os with
  | nil => exact ⟨rfl, rfl⟩
  | cons o rest ih =>
    have ho : o ≠ FsOutcome.writeFail := fun he => h (he ▸ List.mem_cons_self _ _)
    have hrest : FsOutcome.writeFail ∉ rest :=
      fun hm => h (List.mem_cons_of_mem _ hm)
    obtain ⟨ih1, ih2⟩ := ih hrest
    cases hr : runObjEmission rest with
    | none => rw [hr] at ih1; simp at ih1
    | some l =>
      cases o with
      | writeFail => exact absurd rfl ho
      | ok =>
        refine ⟨?_, ?_⟩
        · simp [runObjEmission, writeMeshToObjR, hr]
        · simp [attemptedObjWrites, writeMeshToObjR, ih2]
          omega
      | createFail =>
        refine ⟨?_, ?_⟩
        · simp [runObjEmission, writeMeshToObjR, hr]
        · simp [attemptedObjWrites, writeMeshToObjR, ih2]
          omega

/-- C4 witness for the amended theorem: one creation failure followed by one
success — both hulls attempted, run survives. -/
theorem estoc_c4_amended_witness :
    (runObjEmission [FsOutcome.createFail, FsOutcome.ok]).isSome = true ∧
      attemptedObjWrites [FsOutcome.createFail, FsOutcome.ok]
        = [FsOutcome.createFail, FsOutcome.ok].length :=
  estoc_c4_amended [FsOutcome.createFail, FsOutcome.ok] (by decide)

/-- C5: the claim says the aggregate JSON document is named
`<input-filename><append-suffix>.json`, e.g. `model.gltf-shape.json`.  The
code instead calls `set_extension("json")` on `model.gltf-shape`, whose
last-dot extension is `gltf-shape`; the suffix and the original extension
are both replaced, producing `model.json`. -/
theorem estoc_c5_set_extension_eats_suffix :
    jsonOutName "model.gltf" "-shape" = "model.json" ∧
      jsonOutName "model.gltf" "-shape" ≠ "model.gltf-shape.json" := by
  constructor
  · rfl
  · decide

/-- C6: every OBJ `f` face record carries the hull's 0-based triangle indices
with exactly 1 added to each component (the `u32` increment cannot wrap for
any representable index value), so subtracting 1 from each read-back
component recovers the original indices exactly. -/
theorem estoc_c6_obj_face_round_trip (t : Tri)
    (h1 : t.1 + 1 < u32Mod) (h2 : t.2.1 + 1 < u32Mod)
    (h3 : t.2.2 + 1 < u32Mod) :
    objFaceNums t = (t.1 + 1, t.2.1 + 1, t.2.2 + 1) ∧
      ((objFaceNums t).1 - 1, (objFaceNums t).2.1 - 1,
        (objFaceNums t).2.2 - 1) = t ∧
      objFaceLine t = "f " ++ toString (t.1 + 1) ++ " " ++ toString (t.2.1 + 1)
        ++ " " ++ toString (t.2.2 + 1) := by
  have e1 : u32Add1 t.1 = t.1 + 1 := Nat.mod_eq_of_lt h1
  have e2 : u32Add1 t.2.1 = t.2.1 + 1 := Nat.mod_eq_of_lt h2
  have e3 : u32Add1 t.2.2 = t.2.2 + 1 := Nat.mod_eq_of_lt h3
  have hn : objFaceNums t = (t.1 + 1, t.2.1 + 1, t.2.2 + 1) := by
    rw [objFaceNums, e1, e2, e3]
  refine ⟨hn, ?_, ?_⟩
  · rw [hn]
    simp
  · rw [objFaceLine, hn]

/-- C6 witness at the triangle `(0, 1, 2)`. -/
theorem estoc_c6_witness :
    objFaceNums (0, 1, 2) = (0 + 1, 1 + 1, 2 + 1) ∧
      ((objFaceNums (0, 1, 2)).1 - 1, (objFaceNums (0, 1, 2)).2.1 - 1,
        (objFaceNums (0, 1, 2)).2.2 - 1) = ((0 : Nat), 1, 2) ∧
      objFaceLine (0, 1, 2) = "f " ++ toString (0 + 1) ++ " "
        ++ toString (1 + 1) ++ " " ++ toString (2 + 1) :=
  estoc_c6_obj_face_round_trip (0, 1, 2) (by decide) (by decide) (by decide)

/-- C7: in aggregate JSON mode, each emitted shape's `tris` array is the
hull's internal 0-based triangle list verbatim — across every hull collected
from every mesh group, no component is incremented. -/
theorem estoc_c7_json_tris_unchanged {α : Type}
    (decompose : Shape α → List (Shape α)) (combine : Bool)
    (shapes : List (Shape α)) :
    (writeMeshesToJsonDoc (jsonVecDecomposed decompose combine shapes)).shapes.map
        SerdeShape.tris
      = (jsonVecDecomposed decompose combine shapes).map Shape.tris := by
  rw [writeMeshesToJsonDoc]
  show ((jsonVecDecomposed decompose combine shapes).map
      serdeShapeOfShape).map SerdeShape.tris = _
  rw [List.map_map]
  rfl

/-- C8 counterexample: the claim's invariant fails for extracted meshes —
extraction performs no index validation, so a primitive whose index stream
repeats an index produces a mesh whose triangle has non-distinct (here also
out-of-range) components. -/
theorem estoc_c8_counterexample :
    extractMesh (α := Nat) [⟨some [7], some [0, 0, 0]⟩]
        = some ⟨[7], [(0, 0, 0)]⟩ ∧
      ¬ meshInvariant (Shape.mk [7] [((0 : Nat), (0 : Nat), (0 : Nat))]) :=
  ⟨rfl, by decide⟩

/-- C8 amended: the pipeline never validates indices, so the invariant holds
for an extracted mesh only when the input streams already satisfy it; the
aggregator, however, preserves it: when every input mesh's triangles have
pairwise-distinct indices below its own vertex count, every combined-mesh
triangle has pairwise-distinct indices below the combined vertex count
(the indices being unchanged, not re-based). -/
theorem estoc_c8_amended {α : Type} (shapes : List (Shape α))
    (h : ∀ s ∈ shapes, meshInvariant s) :
    meshInvariant (combineShapes shapes) := by
  rw [combineShapes]
  exact meshInvariant_foldl shapes ⟨[], []⟩
    (fun t ht => absurd ht (List.not_mem_nil t)) h

/-- C8 witness for the amended theorem: two valid single-triangle meshes. -/
theorem estoc_c8_amended_witness :
    meshInvariant (combineShapes
      [Shape.mk [5, 6, 7] [((0 : Nat), 1, 2)],
       Shape.mk [8, 9, 10] [((0 : Nat), 1, 2)]]) :=
  estoc_c8_amended
    [Shape.mk [5, 6, 7] [((0 : Nat), 1, 2)],
     Shape.mk [8, 9, 10] [((0 : Nat), 1, 2)]] (by decide)

/-- C9: with `combine_meshes` and at least one meshed node, the single mesh
group sits at index 0, so `shape_names.get(0)` — the display name of the
first extracted mesh — is the base of every `write_mesh_to_obj` name: each
emitted hull name is that first name followed by the hull index. -/
theorem estoc_c9_combined_name_first {α : Type}
    (decompose : Shape α → List (Shape α)) (shapes : List (Shape α))
    (firstName : String) (restNames : List String) (x : String)
    (hx : x ∈ objHullWriteCalls decompose true shapes
      (firstName :: restNames)) :
    ∃ hullIdx, x = firstName ++ toString hullIdx ∧
      hullIdx < (decompose (combineShapes shapes)).length := by
  rw [objHullWriteCalls, shapeVecComposed] at hx
  simp [hullBaseName] at hx
  obtain ⟨k, hk, hkx⟩ := hx
  exact ⟨k, hkx.symm, hk⟩

/-- C9 witness: a decomposer returning one hull for the (empty) combined
group, with first mesh name `A` — the emitted name is `A0`. -/
theorem estoc_c9_witness :
    ∃ hullIdx, "A0" = "A" ++ toString hullIdx ∧ hullIdx < 1 :=
  estoc_c9_combined_name_first
    (fun _ => [Shape.mk ([] : List Nat) []]) [] "A" [] "A0" (by decide)

/-- C10: every `VHACD::decompose` call of a run receives the one parameter
value built from the arguments — max hull count = `max_hulls`, voxel
resolution = `voxel_resolution`, and the fill mode is always flood fill with
cavity detection; the surface-only mode is not selectable from the CLI
(`Args` carries no fill-mode field, and `paramsOf` ignores every field but
the two counts). -/
theorem estoc_c10_params_uniform {α : Type} (a : Args)
    (groups : List (Shape α)) (call : VHACDParams × Shape α)
    (hcall : call ∈ decompositionCalls a groups) :
    call.1 = paramsOf a ∧ call.1.maxConvexHulls = a.maxHulls ∧
      call.1.resolution = a.voxelResolution ∧
      call.1.fillMode = FillMode.floodFill true ∧
      call.1.fillMode ≠ FillMode.surfaceOnly := by
  rw [decompositionCalls] at hcall
  obtain ⟨g, hg, rfl⟩ := List.mem_map.mp hcall
  exact ⟨rfl, rfl, rfl, rfl, by simp [paramsOf]⟩

/-- C10 witness at a concrete argument record and a one-group run. -/
theorem estoc_c10_witness :
    (paramsOf ⟨"m.gltf", none, none, 1024, 128, true, false, false⟩,
        Shape.mk ([] : List Nat) []).1
      = paramsOf ⟨"m.gltf", none, none, 1024, 128, true, false, false⟩ ∧
    (paramsOf ⟨"m.gltf", none, none, 1024, 128, true, false, false⟩,
        Shape.mk ([] : List Nat) []).1.maxConvexHulls = 1024 ∧
    (paramsOf ⟨"m.gltf", none, none, 1024, 128, true, false, false⟩,
        Shape.mk ([] : List Nat) []).1.resolution = 128 ∧
    (paramsOf ⟨"m.gltf", none, none, 1024, 128, true, false, false⟩,
        Shape.mk ([] : List Nat) []).1.fillMode = FillMode.floodFill true ∧
    (paramsOf ⟨"m.gltf", none, none, 1024, 128, true, false, false⟩,
        Shape.mk ([] : List Nat) []).1.fillMode ≠ FillMode.surfaceOnly :=
  estoc_c10_params_uniform ⟨"m.gltf", none, none, 1024, 128, true, false, false⟩
    [Shape.mk ([] : List Nat) []]
    (paramsOf ⟨"m.gltf", none, none, 1024, 128, true, false, false⟩,
      Shape.mk ([] : List Nat) []) (by decide)
